import Mathlib

set_option maxRecDepth 40000

/-!
Verification of the payment-settlement and license-activation subsystem of
`src/app.py` (ECPay gateway integration).  The Python functions
`gen_check_mac_value`, `verify_ecpay_signature`, `ecpay_webhook`,
`process_ecpay_refund`, `create_payment_order` and `verify_license_token`
are shallowly embedded below as executable Lean functions; database tables
are association lists, SQL updates are list transformations, wall-clock
instants are integers (seconds), and the one external clock / date parser is
passed in explicitly.
-/

/-- ASCII lowercasing of one character (Python `str.lower` restricted to the
ASCII range, which is all the payment code ever feeds it). -/
def asciiLowerChar (c : Char) : Char :=
  if 'A' ≤ c ∧ c ≤ 'Z' then Char.ofNat (c.toNat + 32) else c

/-- ASCII lowercasing of a string. -/
def asciiLowerStr (s : String) : String :=
  String.mk (s.data.map asciiLowerChar)

/-- ASCII uppercasing of one character. -/
def asciiUpperChar (c : Char) : Char :=
  if 'a' ≤ c ∧ c ≤ 'z' then Char.ofNat (c.toNat - 32) else c

/-- ASCII uppercasing of a string (Python `str.upper` on ASCII data). -/
def asciiUpperStr (s : String) : String :=
  String.mk (s.data.map asciiUpperChar)

/-- The whitespace characters stripped by Python `str.strip()`. -/
def isPySpace (c : Char) : Bool :=
  c = ' ' ∨ c = '\t' ∨ c = '\n' ∨ c = '\r' ∨ c = '\x0b' ∨ c = '\x0c'

/-- Python `str.strip()`. -/
def pyStrip (s : String) : String :=
  String.mk (((s.data.dropWhile isPySpace).reverse.dropWhile isPySpace).reverse)

/-- UTF-8 encoding of one character as a list of byte values. -/
def utf8Char (c : Char) : List Nat :=
  let n := c.toNat
  if n < 0x80 then [n]
  else if n < 0x800 then [0xC0 + n / 0x40, 0x80 + n % 0x40]
  else if n < 0x10000 then
    [0xE0 + n / 0x1000, 0x80 + (n / 0x40) % 0x40, 0x80 + n % 0x40]
  else
    [0xF0 + n / 0x40000, 0x80 + (n / 0x1000) % 0x40,
     0x80 + (n / 0x40) % 0x40, 0x80 + n % 0x40]

/-- UTF-8 encoding of a string (Python `s.encode("utf-8")`). -/
def utf8Bytes (s : String) : List Nat :=
  (s.data.map utf8Char).flatten

/-! ### SHA-256 (`hashlib.sha256`), over byte lists, 32-bit words as `Nat % 2^32` -/

/-- 32-bit modular addition. -/
def add32 (a b : Nat) : Nat := (a + b) % 4294967296

/-- 32-bit right rotation; for `x < 2^32` and `0 < n < 32` the two summands
occupy disjoint bit ranges, so `+` is the bitwise or. -/
def rotr32 (n x : Nat) : Nat := (x >>> n) + ((x <<< (32 - n)) % 4294967296)

/-- Three-way xor. -/
def xor3 (a b c : Nat) : Nat := Nat.xor (Nat.xor a b) c

/-- SHA-256 `Ch(e,f,g)`; `4294967295 - e` is the 32-bit complement of `e`. -/
def shaCh (e f g : Nat) : Nat :=
  Nat.xor (Nat.land e f) (Nat.land (4294967295 - e) g)

/-- SHA-256 `Maj(a,b,c)`. -/
def shaMaj (a b c : Nat) : Nat :=
  xor3 (Nat.land a b) (Nat.land a c) (Nat.land b c)

/-- SHA-256 Σ₀. -/
def bigS0 (x : Nat) : Nat := xor3 (rotr32 2 x) (rotr32 13 x) (rotr32 22 x)

/-- SHA-256 Σ₁. -/
def bigS1 (x : Nat) : Nat := xor3 (rotr32 6 x) (rotr32 11 x) (rotr32 25 x)

/-- SHA-256 σ₀. -/
def smallS0 (x : Nat) : Nat := xor3 (rotr32 7 x) (rotr32 18 x) (x >>> 3)

/-- SHA-256 σ₁. -/
def smallS1 (x : Nat) : Nat := xor3 (rotr32 17 x) (rotr32 19 x) (x >>> 10)

/-- The 64 SHA-256 round constants. -/
def shaK : List Nat :=
  [1116352408, 1899447441, 3049323471, 3921009573, 961987163,
   1508970993, 2453635748, 2870763221, 3624381080, 310598401,
   607225278, 1426881987, 1925078388, 2162078206, 2614888103,
   3248222580, 3835390401, 4022224774, 264347078, 604807628,
   770255983, 1249150122, 1555081692, 1996064986, 2554220882,
   2821834349, 2952996808, 3210313671, 3336571891, 3584528711,
   113926993, 338241895, 666307205, 773529912, 1294757372,
   1396182291, 1695183700, 1986661051, 2177026350, 2456956037,
   2730485921, 2820302411, 3259730800, 3345764771, 3516065817,
   3600352804, 4094571909, 275423344, 430227734, 506948616,
   659060556, 883997877, 958139571, 1322822218, 1537002063,
   1747873779, 1955562222, 2024104815, 2227730452, 2361852424,
   2428436474, 2756734187, 3204031479, 3329325298]

/-- The SHA-256 initial hash state. -/
def shaH0 : List Nat :=
  [1779033703, 3144134277, 1013904242,
   2773480762, 1359893119, 2600822924,
   528734635, 1541459225]

/-- `k` bytes of `n` in big-endian order. -/
def lenBytesBE : Nat → Nat → List Nat
  | 0, _ => []
  | k + 1, n => lenBytesBE k (n / 256) ++ [n % 256]

/-- SHA-256 message padding: `0x80`, zeros to 56 mod 64, 8-byte bit length. -/
def shaPad (msg : List Nat) : List Nat :=
  let l := msg.length
  let padLen := (55 + 64 - (l % 64)) % 64
  msg ++ [0x80] ++ List.replicate padLen 0 ++ lenBytesBE 8 (l * 8)

/-- Group bytes into big-endian 32-bit words. -/
def bytesToWords : List Nat → List Nat
  | b0 :: b1 :: b2 :: b3 :: rest =>
    (((b0 * 256 + b1) * 256 + b2) * 256 + b3) :: bytesToWords rest
  | _ => []

/-- Extend a 16-word block to the 64-word message schedule (`n` more words). -/
def shaExtend (ws : List Nat) : Nat → List Nat
  | 0 => ws
  | n + 1 =>
    let i := ws.length
    let w := add32 (add32 (smallS1 (ws.getD (i - 2) 0)) (ws.getD (i - 7) 0))
                   (add32 (smallS0 (ws.getD (i - 15) 0)) (ws.getD (i - 16) 0))
    shaExtend (ws ++ [w]) n

/-- One SHA-256 compression round on the 8-word working state. -/
def shaRound (st : List Nat) (kw : Nat × Nat) : List Nat :=
  match st with
  | [a, b, c, d, e, f, g, h] =>
    let t1 := add32 h (add32 (bigS1 e) (add32 (shaCh e f g) (add32 kw.1 kw.2)))
    let t2 := add32 (bigS0 a) (shaMaj a b c)
    [add32 t1 t2, a, b, c, add32 d t1, e, f, g]
  | other => other

/-- Compress one 64-byte block into the running hash state. -/
def shaBlock (h : List Nat) (block : List Nat) : List Nat :=
  let ws := shaExtend (bytesToWords block) 48
  let st := (shaK.zip ws).foldl shaRound h
  List.zipWith add32 h st

/-- Fold the compression function over `n` consecutive 64-byte blocks. -/
def shaBlocksGo : Nat → List Nat → List Nat → List Nat
  | 0, h, _ => h
  | n + 1, h, l => shaBlocksGo n (shaBlock h (l.take 64)) (l.drop 64)

/-- Fold the compression function over all 64-byte blocks of `l`. -/
def shaBlocks (h : List Nat) (l : List Nat) : List Nat :=
  shaBlocksGo ((l.length + 63) / 64) h l

/-- Uppercase hexadecimal digit. -/
def hexDigitU (n : Nat) : Char :=
  if n < 10 then Char.ofNat (48 + n) else Char.ofNat (55 + n)

/-- A 32-bit word as 8 uppercase hexadecimal characters. -/
def wordHex8 (w : Nat) : List Char :=
  [hexDigitU (w / 268435456 % 16), hexDigitU (w / 16777216 % 16),
   hexDigitU (w / 1048576 % 16), hexDigitU (w / 65536 % 16),
   hexDigitU (w / 4096 % 16), hexDigitU (w / 256 % 16),
   hexDigitU (w / 16 % 16), hexDigitU (w % 16)]

/-- SHA-256 digest of a byte list, rendered as uppercase hexadecimal
(Python `hashlib.sha256(b).hexdigest().upper()`). -/
def sha256HexUpper (msg : List Nat) : String :=
  String.mk (((shaBlocks shaH0 (shaPad msg)).map wordHex8).flatten)

example : sha256HexUpper (utf8Bytes "abc")
    = "BA7816BF8F01CFEA414140DE5DAE2223B00361A396177A9CB410FF61F20015AD" := by
  decide

example : sha256HexUpper (utf8Bytes "")
    = "E3B0C44298FC1C149AFBF4C8996FB92427AE41E4649B934CA495991B7852B855" := by
  decide

/-! ### `gen_check_mac_value` / `verify_ecpay_signature` (src/app.py:1409-1516) -/

/-- Does `pat` occur at the head of `l`? -/
def beginsWith : List Char → List Char → Bool
  | [], _ => true
  | _ :: _, [] => false
  | p :: ps, c :: cs => p == c && beginsWith ps cs

/-- Fueled worker for `pyReplace`; the fuel is the haystack length, which
bounds the number of steps since every step consumes at least one char. -/
def replaceGo (pat rep : List Char) : Nat → List Char → List Char
  | _, [] => []
  | 0, l => l
  | fuel + 1, c :: rest =>
    if beginsWith pat (c :: rest) ∧ pat ≠ [] then
      rep ++ replaceGo pat rep fuel ((c :: rest).drop pat.length)
    else
      c :: replaceGo pat rep fuel rest

/-- Python `str.replace`: non-overlapping left-to-right replacement. -/
def pyReplace (l pat rep : List Char) : List Char :=
  replaceGo pat rep l.length l

/-- The bytes `urllib.parse.quote` never escapes: ASCII letters, digits,
and `_ . - ~`. -/
def isQuoteSafe (b : Nat) : Bool :=
  (65 ≤ b && b ≤ 90) || (97 ≤ b && b ≤ 122) || (48 ≤ b && b ≤ 57) ||
  b == 95 || b == 46 || b == 45 || b == 126

/-- `urllib.parse.quote_plus` over UTF-8 bytes: safe bytes kept, space
becomes `+`, everything else `%XX` with uppercase hex. -/
def quotePlusBytes : List Nat → List Char
  | [] => []
  | b :: bs =>
    (if isQuoteSafe b then [Char.ofNat b]
     else if b == 32 then ['+']
     else ['%', hexDigitU (b / 16), hexDigitU (b % 16)]) ++ quotePlusBytes bs

/-- The seven `str.replace` calls of step 6 of `gen_check_mac_value`
(restore `- _ . ! * ( )` after the lowercased URL-encoding). -/
def ecpayRestore (l : List Char) : List Char :=
  let l := pyReplace l "%2d".data "-".data
  let l := pyReplace l "%5f".data "_".data
  let l := pyReplace l "%2e".data ".".data
  let l := pyReplace l "%21".data "!".data
  let l := pyReplace l "%2a".data "*".data
  let l := pyReplace l "%28".data "(".data
  let l := pyReplace l "%29".data ")".data
  l

/-- The sort key used by `sorted(items, key=lambda x: x[0].lower())`:
the lowercased key as a list of code points. -/
def keyLower (p : String × String) : List Nat :=
  (asciiLowerStr p.1).data.map Char.toNat

/-- Lexicographic comparison of code-point lists (Python `str` comparison). -/
def lexLe : List Nat → List Nat → Bool
  | m :: ms, n :: ns =>
    if m < n then true else if n < m then false else lexLe ms ns
  | [], _ => true
  | _, _ => false

/-- Stable insertion of an entry into a list sorted by `keyLower`; an entry
is placed before later entries with an equal key, matching the stability of
Python's `sorted`. -/
def insSorted (x : String × String) :
    List (String × String) → List (String × String)
  | [] => [x]
  | y :: ys =>
    if lexLe (keyLower x) (keyLower y) then x :: y :: ys else y :: insSorted x ys

/-- Stable sort by case-insensitive key (step 2 of `gen_check_mac_value`). -/
def sortParams : List (String × String) → List (String × String)
  | [] => []
  | x :: xs => insSorted x (sortParams xs)

/-- `gen_check_mac_value(params)` from src/app.py:1409.  The two secrets are
the `ECPAY_HASH_KEY` / `ECPAY_HASH_IV` environment values; a parameter dict
is an association list in insertion order with distinct keys.  `none` models
the `ValueError` raised when a secret is missing or empty after `strip`. -/
def gen_check_mac_value (hashKeyEnv hashIvEnv : String)
    (params : List (String × String)) : Option String :=
  if hashKeyEnv = "" ∨ hashIvEnv = "" then none
  else
    let hash_key := pyStrip hashKeyEnv
    let hash_iv := pyStrip hashIvEnv
    if hash_key = "" ∨ hash_iv = "" then none
    else
      let processed := params.filter (fun p => p.1 ≠ "CheckMacValue")
      let sortedItems := sortParams processed
      let query := String.intercalate "&"
        (sortedItems.map (fun p => p.1 ++ "=" ++ p.2))
      let raw := "HashKey=" ++ hash_key ++ "&" ++ query ++ "&HashIV=" ++ hash_iv
      let encoded := asciiLowerStr (String.mk (quotePlusBytes (utf8Bytes raw)))
      let restored := String.mk (ecpayRestore encoded.data)
      some (sha256HexUpper (utf8Bytes restored))

/-- `dict.get(k, dflt)` on an association list. -/
def dictGetD (params : List (String × String)) (k dflt : String) : String :=
  match params.find? (fun p => p.1 == k) with
  | some p => p.2
  | none => dflt

/-- `verify_ecpay_signature(params)` from src/app.py:1501: recompute the MAC
and compare with the delivered `CheckMacValue`; any exception (missing
secrets) yields `False`. -/
def verify_ecpay_signature (hashKeyEnv hashIvEnv : String)
    (params : List (String × String)) : Bool :=
  match gen_check_mac_value hashKeyEnv hashIvEnv params with
  | some expected => dictGetD params "CheckMacValue" "" == expected
  | none => false

example : gen_check_mac_value "k" "v" [("A", "1"), ("a", "2")]
    = some "8D942B2761A2B05363849AC07C4A1537EEE4B652493DDC0EDB6BE264EFF37B4D" := by
  decide

example : gen_check_mac_value "k" "v" [("a", "2"), ("A", "1")]
    = some "7751EA72F077DE906ED517712C189DE025A8D87DDBD86CA011B7BDFAA36975C1" := by
  decide

example : gen_check_mac_value "k" "v"
    [("MerchantTradeNo", "RM1"), ("TradeNo", "T9"), ("RtnCode", "0"),
     ("TradeAmt", "3990")]
    = some "F4089CC542E5D0588D03C4317343FBA75664EF19D77959A31BF095D96BE87700" := by
  decide

/-! ### Data model: Order / License / UserAuth / LicenseActivation tables -/

/-- A row of the `licenses` table. -/
structure License where
  tier : String
  seats : Int
  expires_at : Int
  status : String
  source : Option String
  deriving Repr, DecidableEq

/-- A row of the `orders` table (the columns the payment core touches).
`is_upgrade` is the parsed `metadata` flag; instants are epoch seconds. -/
structure Order where
  user_id : String
  plan_type : String
  amount : Int
  payment_status : String
  payment_method : Option String
  trade_no : Option String
  is_upgrade : Bool
  invoice_type : Option String
  vat_number : Option String
  payment_code : Option String
  bank_code : Option String
  expire_date : Option Int
  paid_at : Option Int
  expires_at : Option Int
  invoice_number : Option String
  raw_payload : Option String
  email : Option String
  deriving Repr, DecidableEq

/-- A row of the `user_auth` table (the columns the payment core touches). -/
structure UserAuth where
  email : String
  is_subscribed : Bool
  deriving Repr, DecidableEq

/-- A row of the `license_activations` table. -/
structure Activation where
  id : Nat
  channel : String
  order_id : String
  email : String
  plan_type : String
  amount : Int
  status : String
  link_expires_at : Option Int
  license_expires_at : Option Int
  activated_at : Option Int
  activated_by_user_id : Option String
  deriving Repr, DecidableEq

/-- The database: each table is an association list on its unique key
(`orders.order_id`, `licenses.user_id`, `user_auth.user_id`,
`license_activations.activation_token`). -/
structure DB where
  orders : List (String × Order)
  licenses : List (String × License)
  user_auth : List (String × UserAuth)
  activations : List (String × Activation)
  deriving Repr, DecidableEq

/-- `SELECT ... WHERE key = k` on a table with unique keys. -/
def lookupA {α : Type} (l : List (String × α)) (k : String) : Option α :=
  match l.find? (fun p => p.1 == k) with
  | some p => some p.2
  | none => none

/-- `UPDATE ... WHERE key = k`: rewrite the (first) row with key `k`;
a missing key affects zero rows and leaves the table unchanged. -/
def updateA {α : Type} (k : String) (f : α → α) :
    List (String × α) → List (String × α)
  | [] => []
  | p :: rest => if p.1 == k then (p.1, f p.2) :: rest else p :: updateA k f rest

/-- `INSERT ... ON CONFLICT (key) DO UPDATE`: insert `ins` when the key is
absent, otherwise apply `upd` to the existing row. -/
def upsertWith {α : Type} (k : String) (ins : α) (upd : α → α)
    (l : List (String × α)) : List (String × α) :=
  if (lookupA l k).isSome then updateA k upd l else l ++ [(k, ins)]

/-- `INSERT ... ON CONFLICT (key) DO NOTHING`. -/
def insertIfAbsent {α : Type} (k : String) (v : α)
    (l : List (String × α)) : List (String × α) :=
  if (lookupA l k).isSome then l else l ++ [(k, v)]

/-- Python `a or b` on strings: the empty string is falsy. -/
def pyOrS (a b : String) : String := if a ≠ "" then a else b

/-- Python `sub in s` (substring containment). -/
def containsSub : List Char → List Char → Bool
  | [], pat => pat.isEmpty
  | c :: rest, pat => beginsWith pat (c :: rest) || containsSub rest pat

/-- `datetime(2099, 12, 31, 23, 59, 59, tzinfo=TAIWAN_TZ)` as epoch
seconds: the far-future sentinel used for lifetime plans. -/
def datetime2099 : Int := 4102415999

/-- Audit rendering of the raw callback payload; abstracts
`json.dumps(params, ensure_ascii=False)` (the claims never inspect it). -/
def rawPayloadJson (params : List (String × String)) : String :=
  String.intercalate "&" (params.map (fun p => p.1 ++ "=" ++ p.2))

/-! ### `ecpay_webhook` (src/app.py:10318-10674) -/

/-- The webhook handler's environment: configured secrets, the IP allow-list
verdict, the deployment mode, the invoice feature flag together with the
outcome of the external invoice-issuance call, the current instant
(`get_taiwan_time()`), and `datetime.strptime` on the gateway's date
formats (`none` models a parse failure). -/
structure WebhookCtx where
  hashKey : String
  hashIv : String
  ipAllowed : Bool
  envProduction : Bool
  invoiceEnabled : Bool
  invoiceResult : Option String
  now : Int
  strptime : String → Option Int

/-- `ecpay_webhook(request)` from src/app.py:10318: returns the plain-text
acknowledgement (`"1|OK"` / `"0|FAIL"`) and the new database state.  The
SQLite and PostgreSQL branches of the source run the same statements up to
placeholder syntax; the model follows the PostgreSQL branch. -/
def ecpay_webhook (ctx : WebhookCtx) (params : List (String × String))
    (db : DB) : String × DB :=
  if ¬ctx.ipAllowed ∧ ctx.envProduction then ("0|FAIL", db)
  else if ¬verify_ecpay_signature ctx.hashKey ctx.hashIv params then
    ("0|FAIL", db)
  else
    let merchant_trade_no := dictGetD params "MerchantTradeNo" ""
    let trade_no := dictGetD params "TradeNo" ""
    let rtn_code := dictGetD params "RtnCode" ""
    let payment_date := dictGetD params "PaymentDate" ""
    let payment_type := dictGetD params "PaymentType" ""
    let raw_payload_json := rawPayloadJson params
    let expire_date := dictGetD params "ExpireDate" ""
    let payment_code := pyOrS (dictGetD params "PaymentNo" "")
      (pyOrS (dictGetD params "Barcode1" "")
        (pyOrS (dictGetD params "Barcode2" "") (dictGetD params "Barcode3" "")))
    let bank_code := dictGetD params "BankCode" ""
    if rtn_code ≠ "1" then
      -- src/app.py:10403: non-success result code: mark the order failed and
      -- store the raw payload, whatever its current status; ack positively.
      let orders' := updateA merchant_trade_no
        (fun o => { o with payment_status := "failed",
                           raw_payload := some raw_payload_json }) db.orders
      ("1|OK", { db with orders := orders' })
    else
      match lookupA db.orders merchant_trade_no with
      | none => ("1|OK", db)   -- src/app.py:10461: unknown order, absorb
      | some o =>
        let is_upgrade := o.is_upgrade
        let dup : Bool := match o.trade_no with
          | some etn => etn != "" && etn == trade_no && o.payment_status == "paid"
          | none => false
        if dup then ("1|OK", db)   -- src/app.py:10477: duplicate delivery
        else
          let is_atm_cvs := payment_type = "ATM" ∨ payment_type = "CVS" ∨
            payment_type = "BARCODE"
          let is_credit_linepay := payment_type = "Credit" ∨
            payment_type = "WebATM" ∨
            containsSub (asciiUpperStr payment_type).data "LINE".data ∨
            containsSub (asciiUpperStr payment_type).data "APPLE".data
          if is_atm_cvs ∧ o.payment_status = "pending" then
            -- src/app.py:10486: offline code-issuance callback, stays pending
            let expire_dt := if expire_date ≠ "" then ctx.strptime expire_date
              else none
            let orders' := updateA merchant_trade_no (fun oo =>
              { oo with trade_no := some trade_no,
                        payment_method := some payment_type,
                        payment_code :=
                          if payment_code ≠ "" then some payment_code else none,
                        bank_code :=
                          if bank_code ≠ "" then some bank_code else none,
                        expire_date := expire_dt,
                        raw_payload := some raw_payload_json }) db.orders
            ("1|OK", { db with orders := orders' })
          else if (is_credit_linepay ∨ (is_atm_cvs ∧ o.payment_status = "pending"))
              ∧ rtn_code = "1" then
            -- src/app.py:10531: payment confirmed
            let paid_at := if payment_date ≠ "" then
                (ctx.strptime payment_date).getD ctx.now
              else ctx.now
            let expires_dt := if is_upgrade ∨ o.plan_type = "lifetime" then
                datetime2099
              else paid_at + 365 * 86400   -- src/app.py:10556: every other tier
            let plan_type := if is_upgrade then "lifetime" else o.plan_type
            let invTruthy : Bool := match o.invoice_type with
              | some s => s != ""
              | none => false
            let invoice_number : Option String :=
              if ctx.invoiceEnabled && invTruthy then ctx.invoiceResult else none
            let orders' := updateA merchant_trade_no (fun oo =>
              { oo with payment_status := "paid",
                        payment_method := some payment_type,
                        trade_no := some trade_no,
                        paid_at := some paid_at,
                        expires_at := some expires_dt,
                        invoice_number := some (invoice_number.getD merchant_trade_no),
                        raw_payload := some raw_payload_json }) db.orders
            let licenses' := upsertWith o.user_id
              { tier := plan_type, seats := 1, expires_at := expires_dt,
                status := "active", source := none }
              (fun lic => { lic with tier := plan_type, expires_at := expires_dt,
                                     status := "active" })
              db.licenses
            let auth' := updateA o.user_id
              (fun u => { u with is_subscribed := true }) db.user_auth
            ("1|OK", { db with orders := orders', licenses := licenses',
                               user_auth := auth' })
          else
            ("1|OK", db)   -- src/app.py:10658: unhandled combination

/-! ### `process_ecpay_refund` (src/app.py:1945-2071) -/

/-- The result dictionary of `process_ecpay_refund`. -/
inductive RefundOutcome where
  | ok (refund_amount : Int)
  | err (msg : String)
  deriving Repr, DecidableEq

/-- `process_ecpay_refund(trade_no, refund_amount)` from src/app.py:1945.
`gatewayOk` is the outcome of the external refund API call (`RtnCode=1` in
the HTTP 200 response); invoice voiding is fire-and-forget in the source
(failure only logged) and touches no local state, so it has no parameter. -/
def process_ecpay_refund (gatewayOk : Bool) (trade_no : String)
    (refund_amount : Option Int) (db : DB) : RefundOutcome × DB :=
  match lookupA db.orders trade_no with
  | none => (.err "order not found", db)
  | some o =>
    if o.payment_status ≠ "paid" then (.err "status not refundable", db)
    else
      let amt := match refund_amount with
        | none => o.amount
        | some r => r
      if (match refund_amount with
          | some r => decide (r > o.amount)
          | none => false) then
        (.err "amount exceeds order", db)
      else if gatewayOk then
        let orders' := updateA trade_no
          (fun oo => { oo with payment_status := "refunded" }) db.orders
        (.ok amt, { db with orders := orders' })
      else
        (.err "gateway refused", db)

/-! ### `create_payment_order` (src/app.py:9582-9900) and its validators -/

/-- `validate_plan_type` from src/app.py:1669. -/
def validate_plan_type (plan : String) : Bool :=
  plan == "monthly" || plan == "yearly" || plan == "two_year" || plan == "lifetime"

/-- One character of the `^[a-zA-Z0-9_-]+$` user-id pattern. -/
def isUserIdChar (c : Char) : Bool :=
  c.isAlpha || c.isDigit || c == '_' || c == '-'

/-- `validate_user_id` from src/app.py:1603. -/
def validate_user_id (user_id : String) : Bool :=
  user_id != "" && user_id.length ≤ 50 && user_id.data.all isUserIdChar

/-- A character of the local part of the e-mail pattern of src/app.py:1649. -/
def isLocalChar (c : Char) : Bool :=
  c.isAlpha || c.isDigit || c == '.' || c == '_' || c == '%' || c == '+' || c == '-'

/-- A character of the domain part of the e-mail pattern. -/
def isDomainChar (c : Char) : Bool :=
  c.isAlpha || c.isDigit || c == '.' || c == '-'

/-- Split at the first occurrence of `sep`. -/
def breakAt (sep : Char) : List Char → Option (List Char × List Char)
  | [] => none
  | c :: rest =>
    if c == sep then some ([], rest)
    else (breakAt sep rest).map (fun p => (c :: p.1, p.2))

/-- Decision procedure for the domain half of the e-mail regex: it must be
a nonempty run of domain characters, a dot, then at least two letters.  A
match, if any, must split at the last dot, so it suffices to examine the
maximal alphabetic suffix. -/
def emailDomainOk (domain : List Char) : Bool :=
  let r := domain.reverse
  let t := r.takeWhile (fun c => c.isAlpha)
  match r.dropWhile (fun c => c.isAlpha) with
  | '.' :: m => t.length ≥ 2 && m ≠ [] && m.all isDomainChar
  | _ => false

/-- `validate_email` from src/app.py:1626 (the regex
`[a-zA-Z0-9._%+-]+ at-sign [a-zA-Z0-9.-]+ dot [a-zA-Z]x2+` anchored on both
ends, after stripping and a 255-char bound). -/
def validate_email (email0 : String) : Bool :=
  if email0 == "" then false
  else
    let email := pyStrip email0
    if email == "" then false
    else if email.length > 255 then false
    else match breakAt '@' email.data with
      | none => false
      | some (lpart, domain) =>
        lpart ≠ [] && lpart.all isLocalChar && emailDomainOk domain

/-- Server-side price table of src/app.py:9661-9669 (the `lifetime` arm is
the dead `else` fallback noted in the source). -/
def planPrice (plan : String) : Int :=
  if plan = "monthly" then 399
  else if plan = "yearly" then 3990
  else if plan = "two_year" then 9900
  else 3990

/-- The environment of one `create_payment_order` request: configuration,
the generated 18-char order id and formatted trade date (time/uuid based),
the callback URLs, and whether the `INSERT INTO orders` raises. -/
structure CreateOrderCtx where
  merchantId : String
  hashKey : String
  hashIv : String
  tradeNo : String
  tradeDate : String
  returnUrl : String
  orderResultUrl : String
  clientBackUrl : String
  persistOk : Bool

/-- The request body of `create_payment_order`; `amount = none` models an
absent JSON field, `some n` a numeric one (Python treats 0 as falsy). -/
structure CreateOrderReq where
  plan : String
  amount : Option Int
  name : String
  email : String
  phone : String
  invoiceType : String
  vat : String
  note : String
  deriving Repr, DecidableEq

/-- The HTTP outcome of `create_payment_order`. -/
inductive CreateOrderResult where
  | unauthorized
  | configError
  | badPlan
  | lifetimeRejected
  | badInput
  | form (fields : List (String × String))
  deriving Repr, DecidableEq

/-- The pending Order row inserted by src/app.py:9687-9699. -/
def newPendingOrder (uid : String) (req : CreateOrderReq) (amount : Int) :
    Order :=
  { user_id := uid, plan_type := req.plan, amount := amount,
    payment_status := "pending", payment_method := some "ecpay",
    trade_no := none, is_upgrade := false,
    invoice_type := if req.invoiceType ≠ "" then some req.invoiceType else none,
    vat_number := if req.vat ≠ "" then some req.vat else none,
    payment_code := none, bank_code := none, expire_date := none,
    paid_at := none, expires_at := none, invoice_number := none,
    raw_payload := none,
    email := if req.email ≠ "" then some req.email else none }

/-- `create_payment_order(request)` from src/app.py:9582.  When the INSERT
raises, the source logs a warning, rolls back and falls through
(src/app.py:9702-9704), so the checkout form is still produced. -/
def create_payment_order (ctx : CreateOrderCtx)
    (current_user_id : Option String) (req : CreateOrderReq) (db : DB) :
    CreateOrderResult × DB :=
  match current_user_id with
  | none => (.unauthorized, db)
  | some uid =>
    if ctx.merchantId = "" ∨ ctx.hashKey = "" ∨ ctx.hashIv = "" then
      (.configError, db)
    else if ¬validate_plan_type req.plan then (.badPlan, db)
    else if req.plan = "lifetime" then (.lifetimeRejected, db)
    else if ¬validate_user_id uid then (.badInput, db)
    else if req.name = "" ∨ pyStrip req.name = "" ∨ req.name.length > 100 then
      (.badInput, db)
    else if ¬validate_email req.email then (.badInput, db)
    else if req.phone ≠ "" ∧ req.phone.length > 20 then (.badInput, db)
    else if req.vat ≠ "" ∧ (req.vat.length > 20 ∨ ¬req.vat.data.all Char.isDigit)
      then (.badInput, db)
    else if req.note ≠ "" ∧ req.note.length > 500 then (.badInput, db)
    else
      let amount : Int := match req.amount with
        | some a => if a ≠ 0 then a else planPrice req.plan
        | none => planPrice req.plan
      let trade_no := ctx.tradeNo
      let db1 := if ctx.persistOk then
          { db with orders := db.orders ++ [(trade_no, newPendingOrder uid req amount)] }
        else db
      let item_name := if req.plan = "two_year" then "ReelMind Creator Pro 雙年方案"
        else if req.plan = "yearly" then "ReelMind Script Lite 入門版"
        else "ReelMind 永久使用方案"
      let ecpayData :=
        [("MerchantID", ctx.merchantId), ("MerchantTradeNo", trade_no),
         ("MerchantTradeDate", ctx.tradeDate), ("PaymentType", "aio"),
         ("TotalAmount", toString amount), ("TradeDesc", item_name),
         ("ItemName", item_name), ("ReturnURL", ctx.returnUrl),
         ("OrderResultURL", ctx.orderResultUrl), ("ChoosePayment", "Credit"),
         ("EncryptType", "1"), ("ClientBackURL", ctx.clientBackUrl)]
      match gen_check_mac_value ctx.hashKey ctx.hashIv ecpayData with
      | none => (.configError, db1)
      | some mac => (.form (ecpayData ++ [("CheckMacValue", mac)]), db1)

/-! ### `verify_license_token` (src/app.py:11283-11647) -/

/-- The HTTP outcome of `verify_license_token`. -/
inductive RedeemResult where
  | badRequest
  | notFound
  | alreadyActivatedOk
  | alreadyUsed
  | expired
  | loginRedirect
  | success (plan : String)
  deriving Repr, DecidableEq

/-- One character of a well-formed activation token (src/app.py:11308). -/
def isTokenChar (c : Char) : Bool :=
  c.isAlpha || c.isDigit || c == '-' || c == '_'

/-- Entitlement length on redemption (src/app.py:11460-11486): `trial`
recomputes 7 days from the moment of activation; other plans use the
pre-computed `license_expires_at`, falling back to a tier table. -/
def licenseExpiryFor (now : Int) (a : Activation) : Int :=
  if a.plan_type = "trial" then now + 7 * 86400
  else match a.license_expires_at with
    | some t => t
    | none =>
      let days : Int := if a.plan_type = "yearly" then 365
        else if a.plan_type = "lifetime" then 365 * 100
        else 365
      now + days * 86400

/-- The atomic conditional update of src/app.py:11488-11505 together with
`cursor.rowcount`: one `UPDATE license_activations SET status='activated',
activated_at=now, activated_by_user_id=uid WHERE id = .. AND status !=
'activated'` (the row id and the unique `activation_token` identify the
same row).  This is the serialization point of concurrent redemptions. -/
def conditionalActivate (token uid : String) (now : Int)
    (acts : List (String × Activation)) : List (String × Activation) × Nat :=
  match lookupA acts token with
  | some a =>
    if a.status ≠ "activated" then
      let acts' := updateA token (fun aa =>
        { aa with status := "activated", activated_at := some now,
                  activated_by_user_id := some uid }) acts
      (acts', 1)
    else (acts, 0)
  | none => (acts, 0)

/-- The audit `orders` row inserted on redemption (src/app.py:11598-11618). -/
def auditOrder (uid : String) (a : Activation) (now expires : Int) : Order :=
  { user_id := uid, plan_type := a.plan_type, amount := a.amount,
    payment_status := "paid", payment_method := some a.channel,
    trade_no := none, is_upgrade := false, invoice_type := none,
    vat_number := none, payment_code := none, bank_code := none,
    expire_date := none, paid_at := some now, expires_at := some expires,
    invoice_number := none, raw_payload := none, email := some a.email }

/-- Lines 11488 to the end of `verify_license_token`: the conditional
update, the zero-rowcount conflict exit, and on success the License upsert,
the `user_auth` update-or-create, and the audit Order insert.  `a` is the
activation row as read by the earlier SELECT. -/
def redeemFinish (token uid : String) (now : Int) (a : Activation) (db : DB) :
    RedeemResult × DB :=
  let license_expire_dt := licenseExpiryFor now a
  let step := conditionalActivate token uid now db.activations
  if step.2 = 0 then (.alreadyUsed, db)
  else
    let license_source := a.channel   -- src/app.py:11525: both branches yield `channel`
    let licenses' := upsertWith uid
      { tier := a.plan_type, seats := 1, expires_at := license_expire_dt,
        status := "active", source := some license_source }
      (fun lic => { lic with tier := a.plan_type, expires_at := license_expire_dt,
                             status := "active", source := some license_source })
      db.licenses
    let auth' := if (lookupA db.user_auth uid).isSome then
        updateA uid (fun u => { u with is_subscribed := true }) db.user_auth
      else db.user_auth ++ [(uid, { email := a.email, is_subscribed := true })]
    let orders' := insertIfAbsent a.order_id
      (auditOrder uid a now license_expire_dt) db.orders
    (.success a.plan_type,
     { db with activations := step.1, licenses := licenses',
               user_auth := auth', orders := orders' })

/-- `verify_license_token(token)` from src/app.py:11283: format check,
lookup, already-activated handling, link-expiry check (src/app.py:11427:
expired iff `link_expires_at < now`, strictly), login redirect, then the
atomic redemption. -/
def verify_license_token (now : Int) (token : String)
    (current_user_id : Option String) (db : DB) : RedeemResult × DB :=
  if token = "" then (.badRequest, db)
  else if token.length > 200 ∨ ¬token.data.all isTokenChar then (.badRequest, db)
  else
    match lookupA db.activations token with
    | none => (.notFound, db)
    | some a =>
      if a.status = "activated" then
        match current_user_id with
        | some uid =>
          match lookupA db.user_auth uid with
          | some u =>
            if asciiLowerStr u.email = asciiLowerStr a.email ∧ u.is_subscribed then
              (.alreadyActivatedOk, db)
            else (.alreadyUsed, db)
          | none => (.alreadyUsed, db)
        | none => (.alreadyUsed, db)
      else
        let expiredNow : Bool := match a.link_expires_at with
          | some e => decide (e < now)
          | none => false
        if expiredNow then
          let acts' := updateA token (fun aa => { aa with status := "expired" })
            db.activations
          (.expired, { db with activations := acts' })
        else
          match current_user_id with
          | none => (.loginRedirect, db)
          | some uid => redeemFinish token uid now a db

/-- N concurrent redemptions of the same token, all of which already passed
the pre-checks against the snapshot `a` of the activation row, serialized
at their atomic conditional updates in some order: each request in turn
runs lines 11488 onward against the current database. -/
def runRace (token : String) (now : Int) (a : Activation) :
    List String → DB → List RedeemResult × DB
  | [], db => ([], db)
  | uid :: rest, db =>
    let step := redeemFinish token uid now a db
    let tail := runRace token now a rest step.2
    (step.1 :: tail.1, tail.2)

/-- Did a redemption request succeed (grant entitlement)? -/
def isSuccess : RedeemResult → Bool
  | .success _ => true
  | _ => false

/-! ### Store lemmas -/

theorem lookupA_updateA_self {α : Type} (k : String) (f : α → α)
    (l : List (String × α)) :
    lookupA (updateA k f l) k = (lookupA l k).map f := by
  induction l with
  | nil => simp [lookupA, updateA]
  | cons p rest ih =>
    by_cases h : p.1 = k
    · simp [lookupA, updateA, List.find?, h]
    · have hb : (p.1 == k) = false := by simp [h]
      simp only [updateA, hb, Bool.false_eq_true, if_false]
      simp only [lookupA, List.find?, hb] at ih ⊢
      exact ih

/-! ### Fixtures for the concrete evaluations -/

/-- A production webhook environment with secrets `k` / `v`, an allow-listed
caller, invoicing off, and an unparseable `PaymentDate`. -/
def ctxProd : WebhookCtx :=
  { hashKey := "k", hashIv := "v", ipAllowed := true, envProduction := true,
    invoiceEnabled := false, invoiceResult := none,
    now := 1700000000, strptime := fun _ => none }

/-- Fields of a successful Credit-card callback for order `RM1`. -/
def okParamsBase : List (String × String) :=
  [("MerchantTradeNo", "RM1"), ("TradeNo", "T9"), ("RtnCode", "1"),
   ("TradeAmt", "3990"), ("PaymentType", "Credit")]

/-- The successful callback, correctly signed. -/
def okParams : List (String × String) :=
  okParamsBase ++ [("CheckMacValue", (gen_check_mac_value "k" "v" okParamsBase).getD "")]

/-- Fields of a failure callback (`RtnCode=0`) for order `RM1`. -/
def failParamsBase : List (String × String) :=
  [("MerchantTradeNo", "RM1"), ("TradeNo", "T9"), ("RtnCode", "0"),
   ("TradeAmt", "3990"), ("PaymentType", "Credit")]

/-- The failure callback, correctly signed. -/
def failParams : List (String × String) :=
  failParamsBase ++ [("CheckMacValue", (gen_check_mac_value "k" "v" failParamsBase).getD "")]

/-- The successful callback with `TradeAmt` altered after MAC computation. -/
def tamperedParams : List (String × String) :=
  [("MerchantTradeNo", "RM1"), ("TradeNo", "T9"), ("RtnCode", "1"),
   ("TradeAmt", "1"), ("PaymentType", "Credit"),
   ("CheckMacValue", (gen_check_mac_value "k" "v" okParamsBase).getD "")]

/-- A pending yearly order. -/
def orderPending : Order :=
  { user_id := "u1", plan_type := "yearly", amount := 3990,
    payment_status := "pending", payment_method := some "ecpay",
    trade_no := none, is_upgrade := false, invoice_type := none,
    vat_number := none, payment_code := none, bank_code := none,
    expire_date := none, paid_at := none, expires_at := none,
    invoice_number := none, raw_payload := none, email := some "a@b.com" }

/-- The same order after an earlier successful payment `T1`. -/
def orderPaid : Order :=
  { orderPending with payment_status := "paid", trade_no := some "T1",
                      paid_at := some 1690000000 }

/-- Database holding the pending order `RM1`. -/
def dbPending : DB :=
  { orders := [("RM1", orderPending)], licenses := [],
    user_auth := [("u1", { email := "a@b.com", is_subscribed := false })],
    activations := [] }

/-- Database holding the paid order `RM1`. -/
def dbPaid : DB := { dbPending with orders := [("RM1", orderPaid)] }

/-- Database holding a refunded order `RM1`. -/
def dbRefunded : DB :=
  { dbPending with orders := [("RM1", { orderPaid with payment_status := "refunded" })] }

/-- Database with no order named `RM1`. -/
def dbNoOrder : DB := { dbPending with orders := [] }

/-- Database holding a pending two-year order `RM1`. -/
def dbTwoYear : DB :=
  { dbPending with orders := [("RM1", { orderPending with plan_type := "two_year" })] }

/-- Database holding a pending order `RM1` of an unknown tier. -/
def dbWeirdTier : DB :=
  { dbPending with orders := [("RM1", { orderPending with plan_type := "enterprise" })] }

/-! ### C6: tampered or unsigned callbacks mutate nothing -/

/-- C6: whenever MAC verification fails on an inbound callback, the webhook
answers `"0|FAIL"` and leaves every Order and License row untouched. -/
theorem tampered_callback_rejected (ctx : WebhookCtx)
    (params : List (String × String)) (db : DB)
    (h : verify_ecpay_signature ctx.hashKey ctx.hashIv params = false) :
    ecpay_webhook ctx params db = ("0|FAIL", db) := by
  unfold ecpay_webhook
  split
  · rfl
  · simp [h]

/-- C6 witness: the correctly signed success callback with its `TradeAmt`
altered afterwards fails verification, is answered `"0|FAIL"`, and the
order stays pending. -/
theorem tampered_callback_rejected_witness :
    ecpay_webhook ctxProd tamperedParams dbPending = ("0|FAIL", dbPending) :=
  tampered_callback_rejected ctxProd tamperedParams dbPending (by decide)

/-! ### C10: verified success callbacks for unknown orders are absorbed -/

/-- C10: a verified callback with a success result code whose
`MerchantTradeNo` matches no stored order is acknowledged with `"1|OK"` and
changes nothing. -/
theorem unknown_order_absorbed (ctx : WebhookCtx)
    (params : List (String × String)) (db : DB)
    (hip : ctx.ipAllowed = true)
    (hv : verify_ecpay_signature ctx.hashKey ctx.hashIv params = true)
    (hr : dictGetD params "RtnCode" "" = "1")
    (ho : lookupA db.orders (dictGetD params "MerchantTradeNo" "") = none) :
    ecpay_webhook ctx params db = ("1|OK", db) := by
  unfold ecpay_webhook
  simp [hip, hv, hr, ho]

/-- C10 witness: the signed success callback against a database with no
order `RM1` is acknowledged positively and absorbed. -/
theorem unknown_order_absorbed_witness :
    ecpay_webhook ctxProd okParams dbNoOrder = ("1|OK", dbNoOrder) :=
  unknown_order_absorbed ctxProd okParams dbNoOrder (by decide) (by decide)
    (by decide) (by decide)

/-! ### C2: forward-only payment-status transitions (violated by the code) -/

/-- C2 evidence: a verified failure callback arriving for an order that is
already `paid` overwrites its status with `failed` (src/app.py:10403-10437
updates unconditionally), and a verified success callback for a `refunded`
order with a new trade number overwrites it back to `paid` — both
transitions the specification forbids.  The refund path itself respects the
rule: refunding a `pending` order is rejected without mutation. -/
theorem paid_order_clobbered_by_late_callback :
    (ecpay_webhook ctxProd failParams dbPaid).1 = "1|OK" ∧
    (lookupA (ecpay_webhook ctxProd failParams dbPaid).2.orders "RM1").map
        Order.payment_status = some "failed" ∧
    (lookupA (ecpay_webhook ctxProd okParams dbRefunded).2.orders "RM1").map
        Order.payment_status = some "paid" ∧
    process_ecpay_refund true "RM1" none dbPending
      = (.err "status not refundable", dbPending) := by
  decide

/-! ### C4: tier expiry rule on successful payment (violated by the code) -/

/-- C4 evidence: the webhook's expiry computation (src/app.py:10548-10558)
has only a `lifetime` arm and a single `else`: a paid `two_year` order gets
`paid_at + 365 days` (not 730), and an unknown tier is silently given
`paid_at + 365 days` and acknowledged instead of failing. -/
theorem two_year_expiry_computed_as_365_days :
    (lookupA (ecpay_webhook ctxProd okParams dbTwoYear).2.orders "RM1").map
        Order.expires_at = some (some (1700000000 + 365 * 86400)) ∧
    (1700000000 + 365 * 86400 : Int) ≠ 1700000000 + 730 * 86400 ∧
    (ecpay_webhook ctxProd okParams dbWeirdTier).1 = "1|OK" ∧
    (lookupA (ecpay_webhook ctxProd okParams dbWeirdTier).2.orders "RM1").map
        Order.expires_at = some (some (1700000000 + 365 * 86400)) := by
  decide


/-! ### C3: idempotent webhook delivery -/

/-- Truthiness of the order's stored `invoice_type`. -/
def invTypeTruthy (o : Order) : Bool :=
  match o.invoice_type with
  | some s => s != ""
  | none => false

/-- `paid_at` as computed by the success branch (src/app.py:10535-10546). -/
def webhookPaidAt (ctx : WebhookCtx) (params : List (String × String)) : Int :=
  if dictGetD params "PaymentDate" "" ≠ "" then
    (ctx.strptime (dictGetD params "PaymentDate" "")).getD ctx.now
  else ctx.now

/-- `expires_at` as computed by the success branch (src/app.py:10548-10558). -/
def webhookExpiry (ctx : WebhookCtx) (params : List (String × String))
    (o : Order) : Int :=
  if o.is_upgrade ∨ o.plan_type = "lifetime" then datetime2099
  else webhookPaidAt ctx params + 365 * 86400

/-- The rewrite the success branch applies to the order row. -/
def fPaid (ctx : WebhookCtx) (params : List (String × String)) (o : Order) :
    Order → Order := fun oo =>
  { oo with payment_status := "paid",
            payment_method := some (dictGetD params "PaymentType" ""),
            trade_no := some (dictGetD params "TradeNo" ""),
            paid_at := some (webhookPaidAt ctx params),
            expires_at := some (webhookExpiry ctx params o),
            invoice_number := some ((if ctx.invoiceEnabled && invTypeTruthy o
                then ctx.invoiceResult else none).getD
              (dictGetD params "MerchantTradeNo" "")),
            raw_payload := some (rawPayloadJson params) }

/-- The database after the success branch commits. -/
def paidState (ctx : WebhookCtx) (params : List (String × String)) (db : DB)
    (o : Order) : DB :=
  let expires := webhookExpiry ctx params o
  let plan := if o.is_upgrade then "lifetime" else o.plan_type
  { db with
    orders := updateA (dictGetD params "MerchantTradeNo" "")
      (fPaid ctx params o) db.orders,
    licenses := upsertWith o.user_id
      { tier := plan, seats := 1, expires_at := expires, status := "active",
        source := none }
      (fun lic => { lic with tier := plan, expires_at := expires,
                             status := "active" })
      db.licenses,
    user_auth := updateA o.user_id (fun u => { u with is_subscribed := true })
      db.user_auth }

/-- A verified successful Credit callback that finds its order pending
commits the success branch. -/
theorem webhook_success_step (ctx : WebhookCtx)
    (params : List (String × String)) (db : DB) (o : Order)
    (hip : ctx.ipAllowed = true)
    (hv : verify_ecpay_signature ctx.hashKey ctx.hashIv params = true)
    (hr : dictGetD params "RtnCode" "" = "1")
    (hpt : dictGetD params "PaymentType" "" = "Credit")
    (ho : lookupA db.orders (dictGetD params "MerchantTradeNo" "") = some o)
    (hst : o.payment_status = "pending") :
    ecpay_webhook ctx params db = ("1|OK", paidState ctx params db o) := by
  cases htr : o.trade_no with
  | none =>
    simp [ecpay_webhook, paidState, webhookPaidAt, webhookExpiry, invTypeTruthy,
          hip, hv, hr, hpt, ho, hst, htr]
    congr 1
    funext oo
    simp [fPaid, webhookPaidAt, webhookExpiry, invTypeTruthy, hpt]
  | some etn =>
    simp [ecpay_webhook, paidState, webhookPaidAt, webhookExpiry, invTypeTruthy,
          hip, hv, hr, hpt, ho, hst, htr]
    congr 1
    funext oo
    simp [fPaid, webhookPaidAt, webhookExpiry, invTypeTruthy, hpt]

/-- A verified successful callback whose order is already `paid` with the
same recorded trade number is absorbed without any write. -/
theorem webhook_duplicate_step (ctx : WebhookCtx)
    (params : List (String × String)) (db : DB) (o : Order)
    (hip : ctx.ipAllowed = true)
    (hv : verify_ecpay_signature ctx.hashKey ctx.hashIv params = true)
    (hr : dictGetD params "RtnCode" "" = "1")
    (ho : lookupA db.orders (dictGetD params "MerchantTradeNo" "") = some o)
    (hst : o.payment_status = "paid")
    (htr : o.trade_no = some (dictGetD params "TradeNo" ""))
    (htn : dictGetD params "TradeNo" "" ≠ "") :
    ecpay_webhook ctx params db = ("1|OK", db) := by
  simp [ecpay_webhook, hip, hv, hr, ho, hst, htr, htn]

/-- C3: a verified successful Credit callback that finds its order pending
marks it paid and acknowledges; delivering the exact same callback a second
time is acknowledged with `"1|OK"` and mutates nothing (the idempotency
check of src/app.py:10476-10479 matches the recorded trade number and the
`paid` status), so only one pending-to-paid transition and one License
upsert ever happen and `paid_at` is unchanged by the second delivery. -/
theorem webhook_idempotent_delivery (ctx : WebhookCtx)
    (params : List (String × String)) (db : DB) (o : Order)
    (hip : ctx.ipAllowed = true)
    (hv : verify_ecpay_signature ctx.hashKey ctx.hashIv params = true)
    (hr : dictGetD params "RtnCode" "" = "1")
    (hpt : dictGetD params "PaymentType" "" = "Credit")
    (htn : dictGetD params "TradeNo" "" ≠ "")
    (ho : lookupA db.orders (dictGetD params "MerchantTradeNo" "") = some o)
    (hst : o.payment_status = "pending") :
    (ecpay_webhook ctx params db).1 = "1|OK" ∧
    (lookupA (ecpay_webhook ctx params db).2.orders
        (dictGetD params "MerchantTradeNo" "")).map Order.payment_status
      = some "paid" ∧
    ecpay_webhook ctx params (ecpay_webhook ctx params db).2
      = ("1|OK", (ecpay_webhook ctx params db).2) := by
  have hA := webhook_success_step ctx params db o hip hv hr hpt ho hst
  have hlook : lookupA (paidState ctx params db o).orders
      (dictGetD params "MerchantTradeNo" "") = some (fPaid ctx params o o) := by
    simp [paidState, lookupA_updateA_self, ho]
  have hB := webhook_duplicate_step ctx params (paidState ctx params db o)
    (fPaid ctx params o o) hip hv hr hlook rfl rfl htn
  rw [hA]
  refine ⟨rfl, ?_, hB⟩
  rw [hlook]
  rfl

/-- C3 witness: the signed success callback applied twice to the pending
order `RM1`. -/
theorem webhook_idempotent_delivery_witness :
    (ecpay_webhook ctxProd okParams dbPending).1 = "1|OK" ∧
    (lookupA (ecpay_webhook ctxProd okParams dbPending).2.orders
        (dictGetD okParams "MerchantTradeNo" "")).map Order.payment_status
      = some "paid" ∧
    ecpay_webhook ctxProd okParams (ecpay_webhook ctxProd okParams dbPending).2
      = ("1|OK", (ecpay_webhook ctxProd okParams dbPending).2) :=
  webhook_idempotent_delivery ctxProd okParams dbPending orderPending
    (by decide) (by decide) (by decide) (by decide) (by decide) (by decide)
    (by decide)

/-! ### C1: exactly-once activation redemption -/

/-- When the serialization-point row is already `activated`, the conditional
update touches zero rows, the request answers with the conflict error, and
nothing — in particular no License row — is written. -/
theorem redeemFinish_conflict (token uid : String) (now : Int) (a : Activation)
    (db : DB) (b : Activation)
    (h : lookupA db.activations token = some b)
    (hs : b.status = "activated") :
    redeemFinish token uid now a db = (.alreadyUsed, db) := by
  simp [redeemFinish, conditionalActivate, h, hs]

/-- When the serialization-point row is not yet `activated`, the conditional
update claims it: the request succeeds and the row now carries
`status='activated'` and the redeeming user. -/
theorem redeemFinish_success (token uid : String) (now : Int) (a : Activation)
    (db : DB) (b : Activation)
    (h : lookupA db.activations token = some b)
    (hs : b.status ≠ "activated") :
    (redeemFinish token uid now a db).1 = .success a.plan_type ∧
    lookupA (redeemFinish token uid now a db).2.activations token
      = some { b with status := "activated", activated_at := some now,
                      activated_by_user_id := some uid } := by
  simp [redeemFinish, conditionalActivate, h, hs, lookupA_updateA_self]

/-- Once the row is `activated`, every further serialized request conflicts
and leaves the database untouched. -/
theorem runRace_spent (token : String) (now : Int) (a : Activation) :
    ∀ (uids : List String) (db : DB) (b : Activation),
      lookupA db.activations token = some b → b.status = "activated" →
      runRace token now a uids db
        = (uids.map (fun _ => RedeemResult.alreadyUsed), db) := by
  intro uids
  induction uids with
  | nil => intro db b h hs; simp [runRace]
  | cons u rest ih =>
    intro db b h hs
    have h1 := redeemFinish_conflict token u now a db b h hs
    simp [runRace, h1, ih db b h hs]

/-- A homogeneous list of conflict results holds no success. -/
theorem countP_spent (l : List String) :
    (l.map (fun _ => RedeemResult.alreadyUsed)).countP isSuccess = 0 := by
  induction l with
  | nil => rfl
  | cons x xs ih => simp [List.countP_cons, isSuccess, ih]

/-- C1: redemption is exactly-once.  The handler performs the single
conditional update `SET status='activated', activated_by_user_id=uid WHERE
.. AND status != 'activated'` and checks the affected-row count; a zero
count yields the Conflict answer with no License upsert and no state change
(last conjunct).  Hence among `N ≥ 1` concurrent redemptions of the same
token, serialized in any order after passing their pre-checks, exactly one
succeeds, every other one conflicts, and the activation ends `activated`. -/
theorem activation_redeemed_exactly_once (token : String) (now : Int)
    (a0 : Activation) (db : DB) (u0 : String) (uids : List String)
    (h0 : lookupA db.activations token = some a0)
    (hp : a0.status ≠ "activated") :
    ((runRace token now a0 (u0 :: uids) db).1.countP isSuccess = 1) ∧
    (∀ r ∈ (runRace token now a0 (u0 :: uids) db).1,
        r = RedeemResult.success a0.plan_type ∨ r = RedeemResult.alreadyUsed) ∧
    ((lookupA (runRace token now a0 (u0 :: uids) db).2.activations token).map
        Activation.status = some "activated") ∧
    (∀ (db' : DB) (uid : String) (b : Activation),
        lookupA db'.activations token = some b → b.status = "activated" →
        redeemFinish token uid now a0 db' = (.alreadyUsed, db')) := by
  obtain ⟨hs1, hs2⟩ := redeemFinish_success token u0 now a0 db a0 h0 hp
  have hspent := runRace_spent token now a0 uids
    (redeemFinish token u0 now a0 db).2 _ hs2 rfl
  have hrr : runRace token now a0 (u0 :: uids) db
      = ((redeemFinish token u0 now a0 db).1 ::
          uids.map (fun _ => RedeemResult.alreadyUsed),
         (redeemFinish token u0 now a0 db).2) := by
    simp [runRace, hspent]
  rw [hrr]
  refine ⟨?_, ?_, ?_, ?_⟩
  · simp [List.countP_cons, hs1, isSuccess, countP_spent]
  · intro r hr
    rcases List.mem_cons.mp hr with h | h
    · left; rw [h, hs1]
    · right
      obtain ⟨x, _, hx⟩ := List.mem_map.mp h
      exact hx.symm
  · simp [hs2]
  · intro db' uid b hb hsb
    exact redeemFinish_conflict token uid now a0 db' b hb hsb

/-- A pending yearly activation issued by a course channel. -/
def actPend : Activation :=
  { id := 1, channel := "course", order_id := "CO1", email := "a@b.com",
    plan_type := "yearly", amount := 8280, status := "pending",
    link_expires_at := some 1000000, license_expires_at := some 2000000,
    activated_at := none, activated_by_user_id := none }

/-- Database holding the pending activation under token `tokA`. -/
def dbAct : DB :=
  { orders := [], licenses := [],
    user_auth := [("u1", { email := "a@b.com", is_subscribed := false })],
    activations := [("tokA", actPend)] }

/-- C1 witness: three racing redemptions of `tokA` produce exactly one
success. -/
theorem activation_redeemed_exactly_once_witness :
    (runRace "tokA" 500 actPend ["u1", "u2", "u3"] dbAct).1.countP isSuccess
      = 1 :=
  (activation_redeemed_exactly_once "tokA" 500 actPend dbAct "u1" ["u2", "u3"]
    (by decide) (by decide)).1

/-! ### C9: link-expiry boundary -/

/-- The database after the handler marks an activation `expired`
(src/app.py:11429-11440). -/
def expiredState (token : String) (db : DB) : DB :=
  let acts' := updateA token (fun aa => { aa with status := "expired" })
    db.activations
  { db with activations := acts' }

/-- C9 (amended): the expiry comparison of src/app.py:11427 is strict — a
redemption attempt strictly after `link_expires_at` marks the activation
`expired` and grants nothing, while an attempt at an instant equal to or
before `link_expires_at` is still redeemable (the boundary instant belongs
to the redeemable side, not the expired side). -/
theorem link_expiry_boundary (now : Int) (token uid : String)
    (a : Activation) (db : DB) (e : Int)
    (ht0 : token ≠ "")
    (ht1 : ¬token.length > 200)
    (ht2 : token.data.all isTokenChar = true)
    (h0 : lookupA db.activations token = some a)
    (hs : a.status ≠ "activated")
    (he : a.link_expires_at = some e) :
    (e < now →
      verify_license_token now token (some uid) db
        = (.expired, expiredState token db)) ∧
    (¬e < now →
      verify_license_token now token (some uid) db
        = redeemFinish token uid now a db ∧
      (verify_license_token now token (some uid) db).1
        = .success a.plan_type) := by
  constructor
  · intro hlt
    simp [verify_license_token, expiredState, ht0, ht1, ht2, h0, hs, he, hlt]
  · intro hge
    have heq : verify_license_token now token (some uid) db
        = redeemFinish token uid now a db := by
      simp [verify_license_token, ht0, ht1, ht2, h0, hs, he, hge]
    refine ⟨heq, ?_⟩
    rw [heq]
    exact (redeemFinish_success token uid now a db a h0 hs).1

/-- The pending activation whose link expires at instant 777. -/
def actBoundary : Activation := { actPend with link_expires_at := some 777 }

/-- Database holding the boundary activation under token `tokB`. -/
def dbBoundary : DB := { dbAct with activations := [("tokB", actBoundary)] }

/-- C9 counterexample: at `now` exactly equal to `link_expires_at` (777) the
redemption is NOT treated as expired — it succeeds and grants the
entitlement, contradicting the claimed closed-interval behaviour. -/
theorem link_expiry_at_instant_not_expired :
    (verify_license_token 777 "tokB" (some "u1") dbBoundary).1
      = RedeemResult.success "yearly" ∧
    (lookupA (verify_license_token 777 "tokB" (some "u1")
        dbBoundary).2.activations "tokB").map Activation.status
      = some "activated" ∧
    (verify_license_token 777 "tokB" (some "u1") dbBoundary).1
      ≠ RedeemResult.expired := by
  decide

/-- C9 witness: one second after `link_expires_at` the link is expired; at
the boundary instant itself redemption still succeeds. -/
theorem link_expiry_boundary_witness :
    verify_license_token 778 "tokB" (some "u1") dbBoundary
      = (.expired, expiredState "tokB" dbBoundary) ∧
    (verify_license_token 777 "tokB" (some "u1") dbBoundary).1
      = RedeemResult.success "yearly" := by
  constructor
  · exact (link_expiry_boundary 778 "tokB" "u1" actBoundary dbBoundary 777
      (by decide) (by decide) (by decide) (by decide) (by decide)
      (by decide)).1 (by decide)
  · exact ((link_expiry_boundary 777 "tokB" "u1" actBoundary dbBoundary 777
      (by decide) (by decide) (by decide) (by decide) (by decide)
      (by decide)).2 (by decide)).2

/-! ### C5: signature determinism under key reordering -/

theorem lexLe_total : ∀ a b : List Nat, lexLe a b = true ∨ lexLe b a = true
  | [], _ => Or.inl rfl
  | _ :: _, [] => Or.inr rfl
  | x :: xs, y :: ys => by
    rcases Nat.lt_trichotomy x y with h | h | h
    · left; simp [lexLe, h]
    · subst h
      rcases lexLe_total xs ys with ih | ih
      · left; simp [lexLe, lt_self_iff_false, ih]
      · right; simp [lexLe, lt_self_iff_false, ih]
    · right; simp [lexLe, h]

theorem lexLe_asymm_false {a b : List Nat} (h : lexLe a b = false) :
    lexLe b a = true := by
  rcases lexLe_total a b with h1 | h1
  · rw [h] at h1; exact absurd h1 (by simp)
  · exact h1

theorem lexLe_antisymm : ∀ a b : List Nat,
    lexLe a b = true → lexLe b a = true → a = b
  | [], [], _, _ => rfl
  | [], _ :: _, _, h2 => by simp [lexLe] at h2
  | _ :: _, [], h1, _ => by simp [lexLe] at h1
  | x :: xs, y :: ys, h1, h2 => by
    rcases Nat.lt_trichotomy x y with h | h | h
    · exfalso; simp [lexLe, h, Nat.lt_asymm h] at h2
    · subst h
      simp only [lexLe, lt_self_iff_false, if_false] at h1 h2
      rw [lexLe_antisymm xs ys h1 h2]
    · exfalso; simp [lexLe, h, Nat.lt_asymm h] at h1

theorem lexLe_trans : ∀ a b c : List Nat,
    lexLe a b = true → lexLe b c = true → lexLe a c = true
  | [], _, _, _, _ => rfl
  | _ :: _, [], _, h1, _ => by simp [lexLe] at h1
  | _ :: _, _ :: _, [], _, h2 => by simp [lexLe] at h2
  | x :: xs, y :: ys, z :: zs, h1, h2 => by
    rcases Nat.lt_trichotomy x y with hxy | hxy | hxy
    · rcases Nat.lt_trichotomy y z with hyz | hyz | hyz
      · simp [lexLe, Nat.lt_trans hxy hyz]
      · subst hyz; simp [lexLe, hxy]
      · exfalso; simp [lexLe, Nat.lt_asymm hyz, hyz] at h2
    · subst hxy
      simp only [lexLe, lt_self_iff_false, if_false] at h1
      rcases Nat.lt_trichotomy x z with hxz | hxz | hxz
      · simp [lexLe, hxz]
      · subst hxz
        simp only [lexLe, lt_self_iff_false, if_false] at h2 ⊢
        exact lexLe_trans xs ys zs h1 h2
      · exfalso; simp [lexLe, Nat.lt_asymm hxz, hxz] at h2
    · exfalso; simp [lexLe, Nat.lt_asymm hxy, hxy] at h1

theorem insSorted_perm (x : String × String) :
    ∀ l : List (String × String), (insSorted x l).Perm (x :: l)
  | [] => List.Perm.refl _
  | y :: ys => by
    simp only [insSorted]
    split
    · exact List.Perm.refl _
    · exact ((insSorted_perm x ys).cons y).trans (List.Perm.swap x y ys)

theorem sortParams_perm : ∀ l : List (String × String), (sortParams l).Perm l
  | [] => List.Perm.refl _
  | x :: xs =>
    (insSorted_perm x (sortParams xs)).trans ((sortParams_perm xs).cons x)

theorem insSorted_pairwise (x : String × String)
    (l : List (String × String))
    (h : l.Pairwise (fun p q => lexLe (keyLower p) (keyLower q) = true)) :
    (insSorted x l).Pairwise
      (fun p q => lexLe (keyLower p) (keyLower q) = true) := by
  induction l with
  | nil => simp [insSorted]
  | cons y ys ih =>
    rw [List.pairwise_cons] at h
    obtain ⟨hy, hys⟩ := h
    simp only [insSorted]
    split
    · rename_i hxy
      refine List.Pairwise.cons ?_ (List.Pairwise.cons hy hys)
      intro z hz
      rcases List.mem_cons.mp hz with rfl | hz
      · exact hxy
      · exact lexLe_trans _ _ _ hxy (hy z hz)
    · rename_i hxy
      have hyx : lexLe (keyLower y) (keyLower x) = true :=
        lexLe_asymm_false (Bool.not_eq_true _ ▸ hxy)
      refine List.Pairwise.cons ?_ (ih hys)
      intro z hz
      have hz' := (insSorted_perm x ys).mem_iff.mp hz
      rcases List.mem_cons.mp hz' with rfl | hz''
      · exact hyx
      · exact hy z hz''

theorem sortParams_pairwise : ∀ l : List (String × String),
    (sortParams l).Pairwise (fun p q => lexLe (keyLower p) (keyLower q) = true)
  | [] => List.Pairwise.nil
  | x :: xs => insSorted_pairwise x (sortParams xs) (sortParams_pairwise xs)

theorem eq_of_perm_of_pairwise :
    ∀ (l1 l2 : List (String × String)), l1.Perm l2 →
      l1.Pairwise (fun p q => lexLe (keyLower p) (keyLower q) = true) →
      l2.Pairwise (fun p q => lexLe (keyLower p) (keyLower q) = true) →
      (l1.map keyLower).Nodup → l1 = l2
  | [], l2, hp, _, _, _ => hp.nil_eq
  | x :: xs, l2, hp, s1, s2, nd => by
    cases l2 with
    | nil => exact absurd hp.eq_nil (by simp)
    | cons y ys =>
      have hxy : x = y := by
        by_contra hxy
        have hx2 : x ∈ y :: ys := hp.mem_iff.mp (List.mem_cons_self x xs)
        have hy1 : y ∈ x :: xs := hp.symm.mem_iff.mp (List.mem_cons_self y ys)
        rcases List.mem_cons.mp hx2 with h | hxys
        · exact hxy h
        rcases List.mem_cons.mp hy1 with h | hyxs
        · exact hxy h.symm
        have hle1 : lexLe (keyLower x) (keyLower y) = true :=
          (List.pairwise_cons.mp s1).1 y hyxs
        have hle2 : lexLe (keyLower y) (keyLower x) = true :=
          (List.pairwise_cons.mp s2).1 x hxys
        have hkeq : keyLower x = keyLower y := lexLe_antisymm _ _ hle1 hle2
        exact hxy (List.inj_on_of_nodup_map nd (List.mem_cons_self x xs)
          hy1 hkeq)
      subst hxy
      have hp' := hp.cons_inv
      have nd' : (xs.map keyLower).Nodup := by
        simp only [List.map_cons, List.nodup_cons] at nd
        exact nd.2
      rw [eq_of_perm_of_pairwise xs ys hp' (List.pairwise_cons.mp s1).2
        (List.pairwise_cons.mp s2).2 nd']

theorem sortParams_eq_of_perm (l1 l2 : List (String × String))
    (hp : l1.Perm l2) (nd : (l1.map keyLower).Nodup) :
    sortParams l1 = sortParams l2 := by
  have hperm : (sortParams l1).Perm (sortParams l2) :=
    (sortParams_perm l1).trans (hp.trans (sortParams_perm l2).symm)
  have nd1 : ((sortParams l1).map keyLower).Nodup :=
    (((sortParams_perm l1).map keyLower).nodup_iff).mpr nd
  exact eq_of_perm_of_pairwise _ _ hperm (sortParams_pairwise l1)
    (sortParams_pairwise l2) nd1

/-- C5 (amended): `gen_check_mac_value` is invariant under any permutation
of the parameter dict's insertion order provided no two keys collide after
case-folding (the sort of src/app.py:1457 orders by `key.lower()` and is
stable, so the relative insertion order decides ties between
case-colliding keys). -/
theorem sign_order_invariant (hk hiv : String)
    (l1 l2 : List (String × String))
    (hperm : l1.Perm l2) (nd : (l1.map keyLower).Nodup) :
    gen_check_mac_value hk hiv l1 = gen_check_mac_value hk hiv l2 := by
  have hpf : (l1.filter (fun p => p.1 ≠ "CheckMacValue")).Perm
      (l2.filter (fun p => p.1 ≠ "CheckMacValue")) := hperm.filter _
  have ndf : ((l1.filter (fun p => p.1 ≠ "CheckMacValue")).map keyLower).Nodup :=
    nd.sublist ((List.filter_sublist _).map keyLower)
  have key := sortParams_eq_of_perm _ _ hpf ndf
  simp only [gen_check_mac_value]
  rw [key]

/-- C5 counterexample: for the two-key dict with case-colliding keys `A`
and `a`, the two insertion orders are permutations of one another yet
produce different MACs, so `sign` is not order-independent for every
parameter map. -/
theorem sign_order_counterexample :
    [(("a" : String), ("2" : String)), ("A", "1")].Perm [("A", "1"), ("a", "2")] ∧
    gen_check_mac_value "k" "v" [("A", "1"), ("a", "2")]
      ≠ gen_check_mac_value "k" "v" [("a", "2"), ("A", "1")] := by
  constructor
  · decide
  · decide

/-- C5 witness: a two-key dict without case collisions signs identically in
either insertion order. -/
theorem sign_order_invariant_witness :
    gen_check_mac_value "k" "v" [("B", "2"), ("Apple", "1")]
      = gen_check_mac_value "k" "v" [("Apple", "1"), ("B", "2")] :=
  sign_order_invariant "k" "v" _ _ (by decide) (by decide)

/-! ### C7 / C8: order creation -/

/-- Is the result the auto-submitting checkout form? -/
def isForm : CreateOrderResult → Bool
  | .form _ => true
  | _ => false

/-- Read a field of the returned checkout form (empty on any error result). -/
def formField (r : CreateOrderResult) (key : String) : String :=
  match r with
  | .form fields => dictGetD fields key ""
  | _ => ""

/-- The amount the handler settles on (src/app.py:9660-9669): a truthy
client-supplied amount is used as-is, otherwise the plan table. -/
def orderAmount (req : CreateOrderReq) : Int :=
  match req.amount with
  | some a => if a ≠ 0 then a else planPrice req.plan
  | none => planPrice req.plan

theorem lookupA_append_none {α : Type} (l : List (String × α)) (k : String)
    (v : α) (h : lookupA l k = none) :
    lookupA (l ++ [(k, v)]) k = some v := by
  induction l with
  | nil => simp [lookupA, List.find?]
  | cons p rest ih =>
    by_cases hp : p.1 = k
    · simp [lookupA, List.find?, hp] at h
    · have hb : (p.1 == k) = false := by simp [hp]
      simp only [lookupA, List.cons_append, List.find?, hb] at h ⊢
      exact ih h


/-- The item name sent to the gateway (src/app.py:9719-9724). -/
def itemNameOf (req : CreateOrderReq) : String :=
  if req.plan = "two_year" then "ReelMind Creator Pro 雙年方案"
  else if req.plan = "yearly" then "ReelMind Script Lite 入門版"
  else "ReelMind 永久使用方案"

/-- The gateway request fields before the MAC is appended
(src/app.py:9780-9793). -/
def ecpayFields (ctx : CreateOrderCtx) (req : CreateOrderReq) :
    List (String × String) :=
  [("MerchantID", ctx.merchantId), ("MerchantTradeNo", ctx.tradeNo),
   ("MerchantTradeDate", ctx.tradeDate), ("PaymentType", "aio"),
   ("TotalAmount", toString (orderAmount req)), ("TradeDesc", itemNameOf req),
   ("ItemName", itemNameOf req), ("ReturnURL", ctx.returnUrl),
   ("OrderResultURL", ctx.orderResultUrl), ("ChoosePayment", "Credit"),
   ("EncryptType", "1"), ("ClientBackURL", ctx.clientBackUrl)]

/-- Evaluation of `create_payment_order` on any request that passes every
validation: the checkout form is returned, and the pending Order is in the
returned state exactly when the insert succeeded. -/
theorem create_order_step (ctx : CreateOrderCtx)
    (uid : String) (req : CreateOrderReq) (db : DB)
    (hm : ctx.merchantId ≠ "") (hk : ctx.hashKey ≠ "") (hiv : ctx.hashIv ≠ "")
    (hk2 : pyStrip ctx.hashKey ≠ "") (hiv2 : pyStrip ctx.hashIv ≠ "")
    (hplan : validate_plan_type req.plan = true) (hlt : req.plan ≠ "lifetime")
    (huid : validate_user_id uid = true)
    (hn1 : req.name ≠ "") (hn2 : pyStrip req.name ≠ "")
    (hn3 : ¬req.name.length > 100)
    (he : validate_email req.email = true)
    (hph : ¬(req.phone ≠ "" ∧ req.phone.length > 20))
    (hvat : ¬(req.vat ≠ "" ∧ (req.vat.length > 20 ∨ ¬req.vat.data.all Char.isDigit)))
    (hnote : ¬(req.note ≠ "" ∧ req.note.length > 500)) :
    create_payment_order ctx (some uid) req db
      = (.form (ecpayFields ctx req ++
          [("CheckMacValue",
            (gen_check_mac_value ctx.hashKey ctx.hashIv
              (ecpayFields ctx req)).getD "")]),
         if ctx.persistOk = true then
           { db with orders := db.orders ++
               [(ctx.tradeNo, newPendingOrder uid req (orderAmount req))] }
         else db) := by
  simp [create_payment_order, gen_check_mac_value, ecpayFields, itemNameOf,
        orderAmount, hm, hk, hiv, hk2, hiv2, hplan, hlt, huid, hn1, hn2, hn3,
        he, hph, hvat, hnote]
  intro hne
  have h2 := hvat
  push_neg at h2
  obtain ⟨ha, hb⟩ := h2 hne
  exact ⟨ha, by simpa using hb⟩

/-- C7 (amended): a valid create-order request attempts the pending-Order
insert before returning the checkout payload: when the insert succeeds the
returned state holds the pending Order under the generated order id; when
the insert raises, the handler merely logs and continues
(src/app.py:9702-9704), so the checkout payload is still returned over the
unchanged database — fail open, not fail closed. -/
theorem create_order_persists_then_returns_payload (ctx : CreateOrderCtx)
    (uid : String) (req : CreateOrderReq) (db : DB)
    (hm : ctx.merchantId ≠ "") (hk : ctx.hashKey ≠ "") (hiv : ctx.hashIv ≠ "")
    (hk2 : pyStrip ctx.hashKey ≠ "") (hiv2 : pyStrip ctx.hashIv ≠ "")
    (hplan : validate_plan_type req.plan = true) (hlt : req.plan ≠ "lifetime")
    (huid : validate_user_id uid = true)
    (hn1 : req.name ≠ "") (hn2 : pyStrip req.name ≠ "")
    (hn3 : ¬req.name.length > 100)
    (he : validate_email req.email = true)
    (hph : ¬(req.phone ≠ "" ∧ req.phone.length > 20))
    (hvat : ¬(req.vat ≠ "" ∧ (req.vat.length > 20 ∨ ¬req.vat.data.all Char.isDigit)))
    (hnote : ¬(req.note ≠ "" ∧ req.note.length > 500)) :
    isForm (create_payment_order ctx (some uid) req db).1 = true ∧
    (create_payment_order ctx (some uid) req db).2
      = (if ctx.persistOk = true then
          { db with orders := db.orders ++
              [(ctx.tradeNo, newPendingOrder uid req (orderAmount req))] }
         else db) := by
  rw [create_order_step ctx uid req db hm hk hiv hk2 hiv2 hplan hlt huid hn1
    hn2 hn3 he hph hvat hnote]
  exact ⟨rfl, rfl⟩

/-- C7 counterexample: with a failing Order insert the handler still
returns the checkout payload over the unchanged database, where the claim
demands that no payload be returned. -/
theorem create_order_fail_open :
    isForm (create_payment_order
        { merchantId := "M1", hashKey := "k", hashIv := "v", tradeNo := "RM9",
          tradeDate := "2026/01/01 00:00:00", returnUrl := "https://api/r",
          orderResultUrl := "https://api/o", clientBackUrl := "https://app",
          persistOk := false }
        (some "user1")
        { plan := "yearly", amount := none, name := "Tester",
          email := "a@b.com", phone := "", invoiceType := "", vat := "",
          note := "" }
        { orders := [], licenses := [], user_auth := [], activations := [] }).1
      = true ∧
    (create_payment_order
        { merchantId := "M1", hashKey := "k", hashIv := "v", tradeNo := "RM9",
          tradeDate := "2026/01/01 00:00:00", returnUrl := "https://api/r",
          orderResultUrl := "https://api/o", clientBackUrl := "https://app",
          persistOk := false }
        (some "user1")
        { plan := "yearly", amount := none, name := "Tester",
          email := "a@b.com", phone := "", invoiceType := "", vat := "",
          note := "" }
        { orders := [], licenses := [], user_auth := [], activations := [] }).2
      = { orders := [], licenses := [], user_auth := [], activations := [] } := by
  decide

/-- The create-order environment used by the concrete witnesses. -/
def ctxOrder : CreateOrderCtx :=
  { merchantId := "M1", hashKey := "k", hashIv := "v", tradeNo := "RM9",
    tradeDate := "2026/01/01 00:00:00", returnUrl := "https://api/r",
    orderResultUrl := "https://api/o", clientBackUrl := "https://app",
    persistOk := true }

/-- A valid yearly request with no client-supplied amount. -/
def reqYearly : CreateOrderReq :=
  { plan := "yearly", amount := none, name := "Tester", email := "a@b.com",
    phone := "", invoiceType := "", vat := "", note := "" }

/-- The same request with a client-supplied amount of 1. -/
def reqCheap : CreateOrderReq := { reqYearly with amount := some 1 }

/-- The same request asking for the lifetime plan. -/
def reqLifetime : CreateOrderReq := { reqYearly with plan := "lifetime" }

/-- The empty database. -/
def dbEmpty : DB :=
  { orders := [], licenses := [], user_auth := [], activations := [] }

/-- C7 witness: with a succeeding insert, the payload is returned and the
pending order is persisted under `RM9`. -/
theorem create_order_persists_witness :
    isForm (create_payment_order ctxOrder (some "user1") reqYearly dbEmpty).1
      = true ∧
    (create_payment_order ctxOrder (some "user1") reqYearly dbEmpty).2
      = (if ctxOrder.persistOk = true then
          { dbEmpty with orders := dbEmpty.orders ++
              [(ctxOrder.tradeNo, newPendingOrder "user1" reqYearly
                  (orderAmount reqYearly))] }
         else dbEmpty) :=
  create_order_persists_then_returns_payload ctxOrder "user1" reqYearly dbEmpty
    (by decide) (by decide) (by decide) (by decide) (by decide) (by decide)
    (by decide) (by decide) (by decide) (by decide) (by decide) (by decide)
    (by decide) (by decide) (by decide)

/-- C8 (amended): on the end-user path a `lifetime` request is rejected
before any Order is created; the server-side price table decides the
persisted and transmitted amount only when the client supplies no (or a
falsy zero) `amount` — a nonzero client-supplied amount is used as-is. -/
theorem server_side_pricing (ctx : CreateOrderCtx) (uid : String)
    (req : CreateOrderReq) (db : DB) :
    (ctx.merchantId ≠ "" ∧ ctx.hashKey ≠ "" ∧ ctx.hashIv ≠ "" ∧
        req.plan = "lifetime" →
      create_payment_order ctx (some uid) req db = (.lifetimeRejected, db)) ∧
    (ctx.merchantId ≠ "" ∧ ctx.hashKey ≠ "" ∧ ctx.hashIv ≠ "" ∧
        pyStrip ctx.hashKey ≠ "" ∧ pyStrip ctx.hashIv ≠ "" ∧
        validate_plan_type req.plan = true ∧ req.plan ≠ "lifetime" ∧
        validate_user_id uid = true ∧
        req.name ≠ "" ∧ pyStrip req.name ≠ "" ∧ ¬req.name.length > 100 ∧
        validate_email req.email = true ∧
        ¬(req.phone ≠ "" ∧ req.phone.length > 20) ∧
        ¬(req.vat ≠ "" ∧ (req.vat.length > 20 ∨ ¬req.vat.data.all Char.isDigit)) ∧
        ¬(req.note ≠ "" ∧ req.note.length > 500) ∧
        lookupA db.orders ctx.tradeNo = none ∧
        ctx.persistOk = true ∧ req.amount = none →
      formField (create_payment_order ctx (some uid) req db).1 "TotalAmount"
        = toString (planPrice req.plan) ∧
      (lookupA (create_payment_order ctx (some uid) req db).2.orders
          ctx.tradeNo).map Order.amount = some (planPrice req.plan)) := by
  constructor
  · rintro ⟨hm, hk, hiv, hplan⟩
    simp [create_payment_order, validate_plan_type, hm, hk, hiv, hplan]
  · rintro ⟨hm, hk, hiv, hk2, hiv2, hplan, hlt, huid, hn1, hn2, hn3, he,
      hph, hvat, hnote, hfresh, hpersist, hamt⟩
    have hstep := create_order_step ctx uid req db hm hk hiv hk2 hiv2 hplan
      hlt huid hn1 hn2 hn3 he hph hvat hnote
    constructor
    · rw [hstep]
      show toString (orderAmount req) = toString (planPrice req.plan)
      simp [orderAmount, hamt]
    · have hl : lookupA (create_payment_order ctx (some uid) req db).2.orders
          ctx.tradeNo = some (newPendingOrder uid req (orderAmount req)) := by
        rw [hstep]
        show lookupA (if ctx.persistOk = true then _ else db).orders
            ctx.tradeNo = _
        rw [if_pos hpersist]
        exact lookupA_append_none db.orders ctx.tradeNo _ hfresh
      rw [hl]
      simp [newPendingOrder, orderAmount, hamt]

/-- C8 counterexample: a client-supplied amount of 1 for the yearly plan is
persisted on the Order and transmitted to the gateway as `TotalAmount=1`,
although the server-side yearly price is 3990 — the client does determine
the amount. -/
theorem client_amount_trusted :
    (lookupA (create_payment_order ctxOrder (some "user1") reqCheap
        dbEmpty).2.orders "RM9").map Order.amount = some 1 ∧
    formField (create_payment_order ctxOrder (some "user1") reqCheap
        dbEmpty).1 "TotalAmount" = "1" ∧
    planPrice "yearly" ≠ 1 := by
  decide

/-- C8 witness: the lifetime request is rejected with no Order created, and
the yearly request without a client amount is priced from the server-side
table. -/
theorem server_side_pricing_witness :
    create_payment_order ctxOrder (some "user1") reqLifetime dbEmpty
      = (.lifetimeRejected, dbEmpty) ∧
    formField (create_payment_order ctxOrder (some "user1") reqYearly
        dbEmpty).1 "TotalAmount" = toString (planPrice "yearly") := by
  constructor
  · exact (server_side_pricing ctxOrder "user1" reqLifetime dbEmpty).1
      (by decide)
  · exact ((server_side_pricing ctxOrder "user1" reqYearly dbEmpty).2
      (by decide)).1
